import Mathlib

/-!
Shallow embedding of the job-polling operations of
`src/mycity/temp/arcgis/mapping/_types.py` (`estimate_export_tiles_size`,
`export_tiles`) and of the pure helpers of
`src/mycity/temp/arcgis/_impl/common/_utils.py` (`rot13`, `chunks`),
together with theorems settling the specification claims about them.

Python values placed into parameter dictionaries and decoded from JSON are
modelled by the inductive `PyVal`; Python dictionaries by insertion-ordered
association lists; the HTTP connection object and `time.sleep` by an explicit
trace of `Eff` effects; the unbounded `while` loop by a fuel parameter, with
`PollStep.timeout` marking fuel exhaustion (the real loop would still be
running).
-/

/-- A Python value as it appears in request parameters and decoded JSON. -/
inductive PyVal where
  | vstr : String → PyVal
  | vbool : Bool → PyVal
  | vint : Int → PyVal
  | vlist : List PyVal → PyVal
  | vdict : List (String × PyVal) → PyVal
  | vnone : PyVal
deriving Repr

mutual

/-- Python `repr` of a value (as used by `str` on the elements of a list). -/
def pyRepr : PyVal → String
  | .vstr s => "\x27" ++ s ++ "\x27"
  | .vbool b => if b then "True" else "False"
  | .vint n => toString n
  | .vlist xs => "[" ++ pyReprList xs ++ "]"
  | .vdict xs => "\x7b" ++ pyReprDict xs ++ "\x7d"
  | .vnone => "None"

/-- Comma-separated `repr`s of the elements of a Python list. -/
def pyReprList : List PyVal → String
  | [] => ""
  | [x] => pyRepr x
  | x :: rest => pyRepr x ++ ", " ++ pyReprList rest

/-- Comma-separated `repr`s of the items of a Python dict. -/
def pyReprDict : List (String × PyVal) → String
  | [] => ""
  | [kv] => "\x27" ++ kv.1 ++ "\x27: " ++ pyRepr kv.2
  | kv :: rest => "\x27" ++ kv.1 ++ "\x27: " ++ pyRepr kv.2 ++ ", " ++ pyReprDict rest

end

/-- Python `str` of a value: the bare text for a string, `repr` otherwise. -/
def pyStr : PyVal → String
  | .vstr s => s
  | v => pyRepr v

/-- Python dict assignment `d[k] = v`: overwrite in place if the key exists,
append at the end otherwise. -/
def pdSet : List (String × PyVal) → String → PyVal → List (String × PyVal)
  | [], k, v => [(k, v)]
  | (k0, v0) :: rest, k, v =>
    if k0 = k then (k0, v) :: rest else (k0, v0) :: pdSet rest k v

/-- Python dict lookup `d.get(k)` / `d[k]` membership: first binding of `k`. -/
def pdFind : List (String × PyVal) → String → Option PyVal
  | [], _ => none
  | (k0, v0) :: rest, k => if k0 = k then some v0 else pdFind rest k

/-- Subscripting a decoded JSON value with a string key. -/
def pyGet : PyVal → String → Option PyVal
  | .vdict d, k => pdFind d k
  | _, _ => none

/-- Python `x == False`: true for `False` itself and for the number `0`. -/
def pyEqFalse : PyVal → Bool
  | .vbool b => !b
  | .vint n => n == 0
  | _ => false

/-- Python `x == True`: true for `True` itself and for the number `1`. -/
def pyEqTrue : PyVal → Bool
  | .vbool b => b
  | .vint n => n == 1
  | _ => false

/-- An entry of a job's `results` mapping: a result object whose `.value`
attribute holds the payload (`export_tiles` reads `v.value`). -/
structure ResEntry where
  value : PyVal
deriving Repr

/-- The fields of a decoded job-status response that the code reads:
`status` is `none` when the response lacks a `"status"` key
(`job_response.get("status")` then yields Python `None`). -/
structure JobResponse where
  status : Option String
  messages : PyVal
  results : List (String × ResEntry)
deriving Repr

/-- Observable side effects of the operations: HTTP calls through the
connection object, `time.sleep`, and `print`. -/
inductive Eff where
  | httpGet : String → List (String × PyVal) → Eff
  | httpPost : String → List (String × PyVal) → Eff
  | sleep : Nat → Eff
  | printOut : String → Eff
deriving Repr

/-- Outcome of the synchronous poll-loop section. -/
inductive PollStep where
  | success : List (String × ResEntry) → PollStep
  | raised : String → PollStep
  | timeout : PollStep
deriving Repr

/-- A returned Python value of the two operations. -/
inductive Ret where
  | pynone : Ret
  | val : PyVal → Ret
  | results : List (String × ResEntry) → Ret
deriving Repr

/-- Outcome of a whole operation: normal return, raised exception, or fuel
exhaustion of the unbounded poll loop. -/
inductive PyResult where
  | ret : Ret → PyResult
  | exn : String → PyResult
  | fuelOut : PyResult
deriving Repr

/-- The server as the operations see it: the decoded submit response, the
stream of decoded job-status responses (index 0 is the first status fetch),
and the decoded responses to follow-up GETs at result URLs. -/
structure Env where
  submit : PyVal
  jobStatus : Nat → JobResponse
  urlGet : String → PyVal

/-- The success status string. -/
def succStr : String := "esriJobSucceeded"

/-- The terminal failure statuses checked inside the poll loop. -/
def failSet : List String :=
  ["esriJobFailed", "esriJobCancelling", "esriJobCancelled", "esriJobTimedOut"]

/-- The `{"f": "json"}` parameter mapping used for status fetches. -/
def jsonParams : List (String × PyVal) := [("f", PyVal.vstr "json")]

/-- The `while not status == "esriJobSucceeded"` loop, entered with the
current response `cur`; `responses i` is the response to the `i`-th status
fetch (the fetch inside iteration `i` of the loop re-fetches `responses i`).
Each iteration sleeps 5 seconds, re-fetches, and raises if the re-fetched
status lies in `failSet`, printing `str` of the `messages` field first. -/
def pollFrom (path : String) (responses : Nat → JobResponse) :
    Nat → Nat → JobResponse → PollStep × List Eff
  | 0, _, cur =>
    if cur.status = some succStr then (.success cur.results, []) else (.timeout, [])
  | fuel + 1, i, cur =>
    if cur.status = some succStr then (.success cur.results, [])
    else
      match (responses i).status with
      | some s =>
        if s ∈ failSet then
          (.raised ("Job Failed with status " ++ s),
           [.sleep 5, .httpPost path jsonParams, .printOut (pyStr (responses i).messages)])
        else
          ((pollFrom path responses fuel (i + 1) (responses i)).1,
           .sleep 5 :: .httpPost path jsonParams ::
             (pollFrom path responses fuel (i + 1) (responses i)).2)
      | none =>
        ((pollFrom path responses fuel (i + 1) (responses i)).1,
         .sleep 5 :: .httpPost path jsonParams ::
           (pollFrom path responses fuel (i + 1) (responses i)).2)

/-- The synchronous poll section shared verbatim by both operations, starting
after the first status fetch: raise `"No job results."` when the first
response lacks a `status` key, otherwise run the loop on it. -/
def syncPoll (path : String) (responses : Nat → JobResponse) (fuel : Nat) :
    PollStep × List Eff :=
  match (responses 0).status with
  | none => (.raised "No job results.", [])
  | some _ => pollFrom path responses fuel 1 (responses 0)

/-- Effect trace of `k` fruitless loop iterations: sleep 5, re-fetch, repeat. -/
def iterTrace (path : String) : Nat → List Eff
  | 0 => []
  | k + 1 => .sleep 5 :: .httpPost path jsonParams :: iterTrace path k

/-- Parameter mapping assembled by `estimate_export_tiles_size`: the literal
dict, the redundant `params["levels"] = levels` reassignment, the merge of the
extra keyword arguments, then `areaOfInterest` when `area_of_interest` is not
`None`. -/
def estimateParams (levels export_by tile_package export_extent : PyVal)
    (area_of_interest : Option PyVal) (kwargs : List (String × PyVal)) :
    List (String × PyVal) :=
  let params : List (String × PyVal) :=
    [("f", .vstr "json"), ("levels", levels), ("exportBy", export_by),
     ("tilePackage", tile_package), ("exportExtent", export_extent)]
  let params := pdSet params "levels" levels
  let params := kwargs.foldl (fun d kv => pdSet d kv.1 kv.2) params
  match area_of_interest with
  | some v => pdSet params "areaOfInterest" v
  | none => params

/-- Parameter mapping assembled by `export_tiles`: the literal dict, the merge
of the extra keyword arguments, then `areaOfInterest` when `area_of_interest`
is not `None`. -/
def exportParams
    (levels export_by tile_package export_extent optimize_for_size compression : PyVal)
    (area_of_interest : Option PyVal) (kwargs : List (String × PyVal)) :
    List (String × PyVal) :=
  let params : List (String × PyVal) :=
    [("f", .vstr "json"), ("tilePackage", tile_package),
     ("exportExtent", export_extent), ("optimizeTilesForSize", optimize_for_size),
     ("compressionQuality", compression), ("exportBy", export_by),
     ("levels", levels)]
  let params := kwargs.foldl (fun d kv => pdSet d kv.1 kv.2) params
  match area_of_interest with
  | some v => pdSet params "areaOfInterest" v
  | none => params

/-- `estimate_export_tiles_size`: guard on `properties['exportTilesAllowed']
== False`, build the parameters, submit via GET; in asynchronous mode return
the decoded submit response; otherwise fetch job status at
`url/jobs/<jobId>` and run the synchronous poll, returning
`job_response['results']` on success. `props` models `self.properties`. -/
def estimate_export_tiles_size (props : List (String × PyVal)) (baseUrl : String)
    (levels export_by tile_package export_extent : PyVal)
    (area_of_interest : Option PyVal) (asynchronous : Bool)
    (kwargs : List (String × PyVal)) (env : Env) (fuel : Nat) :
    PyResult × List Eff :=
  match pdFind props "exportTilesAllowed" with
  | none => (.exn "KeyError: exportTilesAllowed", [])
  | some allowed =>
    if pyEqFalse allowed then (.ret .pynone, [])
    else
      let url := baseUrl ++ "/estimateExportTilesSize"
      let params := estimateParams levels export_by tile_package export_extent
        area_of_interest kwargs
      if asynchronous then (.ret (.val env.submit), [.httpGet url params])
      else
        match pyGet env.submit "jobId" with
        | none => (.exn "KeyError: jobId", [.httpGet url params])
        | some jid =>
          let path := url ++ "/jobs/" ++ pyStr jid
          let pre : List Eff := [.httpGet url params, .httpPost path jsonParams]
          match syncPoll path env.jobStatus fuel with
          | (.success r, t) => (.ret (.results r), pre ++ t)
          | (.raised m, t) => (.exn m, pre ++ t)
          | (.timeout, t) => (.fuelOut, pre ++ t)

/-- The result post-processing of `export_tiles` after a successful poll: the
`for k, v in allResults.items()` loop returns on its first iteration — the
`out_service_url` branch fetches the result URL and returns either the
downloaded files (`tile_package == True`; the `files.append(..., token=...)`
call raises `TypeError` once a file has been fetched) or `gpRes['folders']`;
any other first key returns `None`, as does an empty mapping. -/
def exportPost (tile_package : PyVal) (env : Env)
    (allResults : List (String × ResEntry)) : PyResult × List Eff :=
  match allResults with
  | [] => (.ret .pynone, [])
  | (k, v) :: _ =>
    if k = "out_service_url" then
      let gpRes := env.urlGet (pyStr v.value)
      if pyEqTrue tile_package then
        match pyGet gpRes "files" with
        | some (.vlist []) => (.ret (.val (.vlist [])), [.httpGet (pyStr v.value) jsonParams])
        | some (.vlist (f :: _)) =>
          match pyGet f "name", pyGet f "url" with
          | some _, some dlURL =>
            (.exn "TypeError: append() takes no keyword arguments",
             [.httpGet (pyStr v.value) jsonParams, .httpGet (pyStr dlURL) jsonParams])
          | _, _ => (.exn "KeyError", [.httpGet (pyStr v.value) jsonParams])
        | _ => (.exn "TypeError", [.httpGet (pyStr v.value) jsonParams])
      else
        match pyGet gpRes "folders" with
        | some fol => (.ret (.val fol), [.httpGet (pyStr v.value) jsonParams])
        | none => (.exn "KeyError: folders", [.httpGet (pyStr v.value) jsonParams])
    else (.ret .pynone, [])

/-- `export_tiles`: build the parameters and submit via GET (no
`exportTilesAllowed` guard — `props` models `self.properties` and is never
consulted); in asynchronous mode return the decoded submit response; otherwise
run the synchronous poll and post-process the `results` mapping. -/
def export_tiles (props : List (String × PyVal)) (baseUrl : String)
    (levels export_by tile_package export_extent optimize_for_size compression : PyVal)
    (area_of_interest : Option PyVal) (asynchronous : Bool)
    (kwargs : List (String × PyVal)) (env : Env) (fuel : Nat) :
    PyResult × List Eff :=
  let _ := props
  let params := exportParams levels export_by tile_package export_extent
    optimize_for_size compression area_of_interest kwargs
  let url := baseUrl ++ "/exportTiles"
  if asynchronous then (.ret (.val env.submit), [.httpGet url params])
  else
    match pyGet env.submit "jobId" with
    | none => (.exn "KeyError: jobId", [.httpGet url params])
    | some jid =>
      let path := url ++ "/jobs/" ++ pyStr jid
      let pre : List Eff := [.httpGet url params, .httpPost path jsonParams]
      match syncPoll path env.jobStatus fuel with
      | (.success r, t) =>
        ((exportPost tile_package env r).1, pre ++ t ++ (exportPost tile_package env r).2)
      | (.raised m, t) => (.exn m, pre ++ t)
      | (.timeout, t) => (.fuelOut, pre ++ t)

/-- `rot13` of a single Python code point (`ord`-value), from `_utils.py`. -/
def rot13Char (c : Nat) : Nat :=
  if 97 ≤ c ∧ c ≤ 122 then (if 109 < c then c - 13 else c + 13)
  else if 65 ≤ c ∧ c ≤ 90 then (if 77 < c then c - 13 else c + 13)
  else c

/-- `rot13` over a string viewed as its list of code points, mirroring the
character loop that appends `chr(c)` to the result. -/
def rot13 : List Nat → List Nat
  | [] => []
  | c :: rest => rot13Char c :: rot13 rest

/-- Python `range(0, stop, step)` for a positive step: `0, step, 2*step, ...`
strictly below `stop`. -/
def pyRange (stop step : Nat) : List Nat :=
  (List.range ((stop + step - 1) / step)).map (· * step)

/-- `chunks(l, n)` from `_utils.py`: the slices `l[i:i+n]` for `i` in
`range(0, len(l), n)`. -/
def chunks {α : Type} (l : List α) (n : Nat) : List (List α) :=
  (pyRange l.length n).map (fun i => (l.drop i).take n)

/-! Concrete fixtures used by counterexamples and witnesses. -/

/-- A results mapping whose only key is not `out_service_url`. -/
def resultsOther : List (String × ResEntry) := [("out_bytes", ⟨.vint 42⟩)]

/-- A job response with the failure status `esriJobFailed`. -/
def respFailed : JobResponse := ⟨some "esriJobFailed", .vstr "boom", resultsOther⟩

/-- A job response with the failure status `esriJobTimedOut`. -/
def respTimedOut : JobResponse := ⟨some "esriJobTimedOut", .vstr "server message list", []⟩

/-- A job response with the non-terminal status `esriJobExecuting`. -/
def respExec : JobResponse := ⟨some "esriJobExecuting", .vstr "", []⟩

/-- A job response lacking a `status` key. -/
def respNoStatus : JobResponse := ⟨none, .vstr "", []⟩

/-- A succeeded job response carrying `resultsOther`. -/
def respSucc : JobResponse := ⟨some "esriJobSucceeded", .vstr "", resultsOther⟩

/-- A server whose job fails on the first status fetch and succeeds on the
re-fetch. -/
def envFlip : Env :=
  ⟨.vdict [("jobId", .vstr "j1")], fun i => if i = 0 then respFailed else respSucc,
   fun _ => .vnone⟩

/-- A server whose job succeeds immediately. -/
def envOk : Env :=
  ⟨.vdict [("jobId", .vstr "j1")], fun _ => respSucc, fun _ => .vnone⟩

/-- Status stream: executing, then a response lacking `status`, then success. -/
def statusesGap : Nat → JobResponse :=
  fun i => if i = 0 then respExec else if i = 1 then respNoStatus else respSucc

/-- A properties mapping that allows tile export. -/
def propsAllowed : List (String × PyVal) := [("exportTilesAllowed", .vbool true)]

/-- A properties mapping that forbids tile export. -/
def propsForbidden : List (String × PyVal) := [("exportTilesAllowed", .vbool false)]

/-! Helper lemmas about the poll loop. -/

/-- A status in the failure set is not the success status. -/
theorem mem_failSet_ne_succ {s : String} (h : s ∈ failSet) : s ≠ succStr :=
  fun heq => absurd (heq ▸ h) (by decide)

/-- The loop condition exits as soon as the current status is the success
status, yielding the current response's results with no further effects. -/
theorem pollFrom_succ (path : String) (responses : Nat → JobResponse)
    (fuel i : Nat) (cur : JobResponse) (h : cur.status = some succStr) :
    pollFrom path responses fuel i cur = (.success cur.results, []) := by
  cases fuel <;> simp [pollFrom, h]

/-- With fuel exhausted and a non-success current status, the loop is still
running. -/
theorem pollFrom_zero (path : String) (responses : Nat → JobResponse)
    (i : Nat) (cur : JobResponse) (h : ¬ cur.status = some succStr) :
    pollFrom path responses 0 i cur = (.timeout, []) := by
  simp [pollFrom, h]

/-- A loop iteration whose re-fetched status lies in the failure set prints
`str` of the messages and raises with the status in the exception message. -/
theorem pollFrom_failStep (path : String) (responses : Nat → JobResponse)
    (fuel i : Nat) (cur : JobResponse) (s : String)
    (hc : ¬ cur.status = some succStr) (hs : (responses i).status = some s)
    (hf : s ∈ failSet) :
    pollFrom path responses (fuel + 1) i cur =
      (.raised ("Job Failed with status " ++ s),
       [.sleep 5, .httpPost path jsonParams,
        .printOut (pyStr (responses i).messages)]) := by
  simp [pollFrom, hc, hs, hf]

/-- A loop iteration whose re-fetched status is neither success nor failure
sleeps, fetches, and continues with the new response. -/
theorem pollFrom_contStep_some (path : String) (responses : Nat → JobResponse)
    (fuel i : Nat) (cur : JobResponse) (s : String)
    (hc : ¬ cur.status = some succStr) (hs : (responses i).status = some s)
    (hnf : s ∉ failSet) :
    pollFrom path responses (fuel + 1) i cur =
      ((pollFrom path responses fuel (i + 1) (responses i)).1,
       .sleep 5 :: .httpPost path jsonParams ::
         (pollFrom path responses fuel (i + 1) (responses i)).2) := by
  simp [pollFrom, hc, hs, hnf]

/-- A loop iteration whose re-fetched response lacks a `status` key sleeps,
fetches, and continues with the new response: the missing key is not treated
as an error. -/
theorem pollFrom_contStep_none (path : String) (responses : Nat → JobResponse)
    (fuel i : Nat) (cur : JobResponse)
    (hc : ¬ cur.status = some succStr) (hs : (responses i).status = none) :
    pollFrom path responses (fuel + 1) i cur =
      ((pollFrom path responses fuel (i + 1) (responses i)).1,
       .sleep 5 :: .httpPost path jsonParams ::
         (pollFrom path responses fuel (i + 1) (responses i)).2) := by
  simp [pollFrom, hc, hs]

/-! Helper lemmas for `rot13` and `chunks`. -/

/-- `rot13Char` is an involution on code points. -/
theorem rot13Char_invol (c : Nat) : rot13Char (rot13Char c) = c := by
  unfold rot13Char
  split_ifs <;> omega

/-- `chunks` of the empty list is empty. -/
theorem chunks_nil {α : Type} (n : Nat) : chunks ([] : List α) n = [] := by
  unfold chunks pyRange
  cases n with
  | zero => simp
  | succ m =>
    have h : 0 + (m + 1) - 1 = m := by omega
    rw [List.length_nil, h, Nat.div_eq_of_lt (by omega)]
    rfl

/-- On a nonempty list and positive `n`, `chunks` yields the first `n`
elements and then chunks the rest: the generator's first slice is `l[0:n]`
and the remaining indices `n, 2n, ...` walk `l.drop n`. -/
theorem chunks_cons {α : Type} (n : Nat) (hn : 0 < n) (l : List α) (hl : l ≠ []) :
    chunks l n = l.take n :: chunks (l.drop n) n := by
  have hlen : 0 < l.length := List.length_pos.mpr hl
  unfold chunks pyRange
  have h1 : l.length + n - 1 = (l.length - 1) + n := by omega
  have hcount : ((l.drop n).length + n - 1) / n = (l.length - 1) / n := by
    rcases le_or_lt l.length n with hle | hlt
    · have hd : (l.drop n).length = 0 := by simp [List.length_drop]; omega
      rw [hd, Nat.div_eq_of_lt (by omega), Nat.div_eq_of_lt (by omega)]
    · have hd : (l.drop n).length + n - 1 = (l.length - 1 - n) + n := by
        simp [List.length_drop]; omega
      rw [hd, Nat.add_div_right _ hn]
      conv_rhs => rw [show l.length - 1 = (l.length - 1 - n) + n from by omega,
        Nat.add_div_right _ hn]
  rw [h1, Nat.add_div_right _ hn, hcount, List.range_succ_eq_map]
  simp only [List.map_cons, List.map_map, Nat.zero_mul, List.drop_zero]
  refine congrArg (l.take n :: ·) ?_
  refine List.map_congr_left ?_
  intro k _
  simp only [Function.comp_apply, List.drop_drop]
  have : k * n + n = Nat.succ k * n := by rw [Nat.succ_mul]
  rw [Nat.add_comm n (k * n), this]

/-- Concatenating the chunks restores the list. -/
theorem chunks_flatten {α : Type} (n : Nat) (hn : 0 < n) (l : List α) :
    (chunks l n).flatten = l := by
  suffices H : ∀ N (l : List α), l.length ≤ N → (chunks l n).flatten = l from
    H l.length l le_rfl
  intro N
  induction N with
  | zero =>
    intro l h
    have : l = [] := List.length_eq_zero.mp (Nat.le_zero.mp h)
    simp [this, chunks_nil]
  | succ N IH =>
    intro l h
    rcases eq_or_ne l [] with rfl | hne
    · simp [chunks_nil]
    · rw [chunks_cons n hn l hne, List.flatten_cons,
        IH (l.drop n) (by simp [List.length_drop]; omega)]
      exact List.take_append_drop n l

/-- Every chunk is nonempty and no longer than `n`. -/
theorem chunks_length_bounds {α : Type} (n : Nat) (hn : 0 < n) (l : List α) :
    ∀ c ∈ chunks l n, 1 ≤ c.length ∧ c.length ≤ n := by
  suffices H : ∀ N (l : List α), l.length ≤ N →
      ∀ c ∈ chunks l n, 1 ≤ c.length ∧ c.length ≤ n from H l.length l le_rfl
  intro N
  induction N with
  | zero =>
    intro l h c hc
    have : l = [] := List.length_eq_zero.mp (Nat.le_zero.mp h)
    rw [this, chunks_nil] at hc
    cases hc
  | succ N IH =>
    intro l h c hc
    rcases eq_or_ne l [] with rfl | hne
    · rw [chunks_nil] at hc; cases hc
    · rw [chunks_cons n hn l hne, List.mem_cons] at hc
      rcases hc with hc | hc
      · have hlen : 0 < l.length := List.length_pos.mpr hne
        subst hc
        constructor
        · simp [List.length_take]; omega
        · simp [List.length_take]
      · exact IH (l.drop n) (by simp [List.length_drop]; omega) c hc

/-- Every chunk before the last has length exactly `n`. -/
theorem chunks_dropLast_length {α : Type} (n : Nat) (hn : 0 < n) (l : List α) :
    ∀ c ∈ (chunks l n).dropLast, c.length = n := by
  suffices H : ∀ N (l : List α), l.length ≤ N →
      ∀ c ∈ (chunks l n).dropLast, c.length = n from H l.length l le_rfl
  intro N
  induction N with
  | zero =>
    intro l h c hc
    have : l = [] := List.length_eq_zero.mp (Nat.le_zero.mp h)
    rw [this, chunks_nil] at hc
    cases hc
  | succ N IH =>
    intro l h c hc
    rcases eq_or_ne l [] with rfl | hne
    · rw [chunks_nil] at hc; cases hc
    · rw [chunks_cons n hn l hne] at hc
      rcases hrest : chunks (l.drop n) n with _ | ⟨r, rs⟩
      · rw [hrest, List.dropLast_single] at hc
        cases hc
      · rw [hrest, List.dropLast_cons₂, List.mem_cons] at hc
        rcases hc with hc | hc
        · have hd : l.drop n ≠ [] := by
            intro hd
            rw [hd, chunks_nil] at hrest
            cases hrest
          have hlt : n < l.length := by
            have := List.length_pos.mpr hd
            simp [List.length_drop] at this
            omega
          subst hc
          simp [List.length_take]
          omega
        · have := IH (l.drop n) (by simp [List.length_drop]; omega) c
          rw [hrest] at this
          exact this hc

/-- `rot13` applied twice over the code-point list is the identity. -/
theorem rot13_rot13 (s : List Nat) : rot13 (rot13 s) = s := by
  induction s with
  | nil => rfl
  | cons c rest ih => simp [rot13, rot13Char_invol, ih]

/-- `rot13` preserves the length of its input. -/
theorem rot13_length (s : List Nat) : (rot13 s).length = s.length := by
  induction s with
  | nil => rfl
  | cons c rest ih => simp [rot13, ih]

/-- C9: `rot13` is an involution, shifts each ASCII letter by 13 places within
its own case, leaves every other character unchanged, and preserves the length
of its input. -/
theorem rot13_spec (s : List Nat) (c : Nat) :
    rot13 (rot13 s) = s ∧ (rot13 s).length = s.length ∧
    (97 ≤ c → c ≤ 122 → rot13Char c = 97 + (c - 97 + 13) % 26) ∧
    (65 ≤ c → c ≤ 90 → rot13Char c = 65 + (c - 65 + 13) % 26) ∧
    (¬(97 ≤ c ∧ c ≤ 122) → ¬(65 ≤ c ∧ c ≤ 90) → rot13Char c = c) := by
  refine ⟨rot13_rot13 s, rot13_length s, ?_, ?_, ?_⟩ <;>
    (intro h1 h2; unfold rot13Char; split_ifs <;> omega)

/-- C9 witness: the spec theorem evaluated on the code points of `"Hello!"`
and on the letters `h`, `M`, and the non-letter `!`. -/
theorem rot13_spec_witness :
    rot13 (rot13 [72, 101, 108, 108, 111, 33]) = [72, 101, 108, 108, 111, 33] ∧
    rot13Char 104 = 97 + (104 - 97 + 13) % 26 ∧
    rot13Char 77 = 65 + (77 - 65 + 13) % 26 ∧
    rot13Char 33 = 33 :=
  ⟨(rot13_spec [72, 101, 108, 108, 111, 33] 0).1,
   (rot13_spec [] 104).2.2.1 (by decide) (by decide),
   (rot13_spec [] 77).2.2.2.1 (by decide) (by decide),
   (rot13_spec [] 33).2.2.2.2 (by decide) (by decide)⟩

/-- C10: for `n > 0`, the chunks of `l` concatenate back to `l`; every chunk
before the last has length exactly `n`, and every chunk (in particular the
last) has length between 1 and `n`. -/
theorem chunks_spec {α : Type} (n : Nat) (hn : 0 < n) (l : List α) :
    (chunks l n).flatten = l ∧
    (∀ c ∈ (chunks l n).dropLast, c.length = n) ∧
    (∀ c ∈ chunks l n, 1 ≤ c.length ∧ c.length ≤ n) :=
  ⟨chunks_flatten n hn l, chunks_dropLast_length n hn l, chunks_length_bounds n hn l⟩

/-- C10 witness: the spec theorem evaluated at `n = 2` on a five-element
list. -/
theorem chunks_spec_witness :
    0 < 2 ∧
    ((chunks [10, 20, 30, 40, 50] 2).flatten = [10, 20, 30, 40, 50] ∧
     (∀ c ∈ (chunks [10, 20, 30, 40, 50] 2).dropLast, c.length = 2) ∧
     (∀ c ∈ chunks [10, 20, 30, 40, 50] 2, 1 ≤ c.length ∧ c.length ≤ 2)) :=
  ⟨by decide, chunks_spec 2 (by decide) [10, 20, 30, 40, 50]⟩

/-- C2 counterexample: with the first fetched status already `esriJobFailed`
(and the job still failed on the re-fetch), the poll does not raise
immediately — its effect trace contains a further `sleep(5)` and a further
status fetch before the raise. -/
theorem syncPoll_firstFailure_counterexample :
    syncPoll "p" (fun _ => respFailed) 5 =
      (.raised "Job Failed with status esriJobFailed",
       [.sleep 5, .httpPost "p" jsonParams, .printOut "boom"]) ∧
    Eff.sleep 5 ∈ (syncPoll "p" (fun _ => respFailed) 5).2 ∧
    Eff.httpPost "p" jsonParams ∈ (syncPoll "p" (fun _ => respFailed) 5).2 := by
  have h : syncPoll "p" (fun _ => respFailed) 5 =
      (.raised "Job Failed with status esriJobFailed",
       [.sleep 5, .httpPost "p" jsonParams, .printOut "boom"]) := by rfl
  exact ⟨h, by rw [h]; simp, by rw [h]; simp⟩

/-- C2 (amended): when the first fetched status is in the failure set, the
loop performs one further 5-second sleep and one further status fetch before
the failure check; it raises at the re-fetched status when that status is also
in the failure set. -/
theorem syncPoll_firstFailure (path : String) (responses : Nat → JobResponse)
    (fuel : Nat) (s s' : String)
    (h0 : (responses 0).status = some s) (h0f : s ∈ failSet)
    (h1 : (responses 1).status = some s') (h1f : s' ∈ failSet) :
    syncPoll path responses (fuel + 1) =
      (.raised ("Job Failed with status " ++ s'),
       [.sleep 5, .httpPost path jsonParams,
        .printOut (pyStr (responses 1).messages)]) := by
  have hc : ¬ (responses 0).status = some succStr := by
    rw [h0]
    intro heq
    exact mem_failSet_ne_succ h0f (Option.some.inj heq)
  unfold syncPoll
  rw [h0]
  exact pollFrom_failStep path responses fuel 1 (responses 0) s' hc h1 h1f

/-- C2 witness: the amended theorem evaluated on a server that reports
`esriJobFailed` on every fetch. -/
theorem syncPoll_firstFailure_witness :
    syncPoll "w" (fun _ => respFailed) 4 =
      (.raised "Job Failed with status esriJobFailed",
       [.sleep 5, .httpPost "w" jsonParams, .printOut "boom"]) :=
  syncPoll_firstFailure "w" (fun _ => respFailed) 3 "esriJobFailed" "esriJobFailed"
    rfl (by decide) rfl (by decide)

/-- C3 counterexample: the raised exception's message is
`"Job Failed with status " + status`; the server's message list (here the
string `"server message list"`) is not the error detail — it is only printed. -/
theorem failureDetail_counterexample :
    (syncPoll "q" (fun _ => respTimedOut) 5).1 =
      .raised "Job Failed with status esriJobTimedOut" ∧
    pyStr respTimedOut.messages = "server message list" ∧
    ("Job Failed with status esriJobTimedOut" : String) ≠ "server message list" ∧
    Eff.printOut "server message list" ∈ (syncPoll "q" (fun _ => respTimedOut) 5).2 := by
  refine ⟨rfl, rfl, by decide, ?_⟩
  have h : (syncPoll "q" (fun _ => respTimedOut) 5).2 =
      [.sleep 5, .httpPost "q" jsonParams, .printOut "server message list"] := by rfl
  rw [h]
  simp

/-- C3 (amended): when the loop raises for a terminal non-success status, it
first prints `str` of the job response's `messages` field to standard output;
the raised exception's message is `"Job Failed with status " + status` and
does not carry the message list. -/
theorem failureDetail (path : String) (responses : Nat → JobResponse)
    (fuel i : Nat) (cur : JobResponse) (s : String)
    (hc : ¬ cur.status = some succStr) (hs : (responses i).status = some s)
    (hf : s ∈ failSet) :
    pollFrom path responses (fuel + 1) i cur =
      (.raised ("Job Failed with status " ++ s),
       [.sleep 5, .httpPost path jsonParams,
        .printOut (pyStr (responses i).messages)]) :=
  pollFrom_failStep path responses fuel i cur s hc hs hf

/-- C3 witness: the amended theorem evaluated on a server that reports
`esriJobTimedOut` on every fetch. -/
theorem failureDetail_witness :
    pollFrom "q" (fun _ => respTimedOut) 3 1 respExec =
      (.raised "Job Failed with status esriJobTimedOut",
       [.sleep 5, .httpPost "q" jsonParams, .printOut "server message list"]) :=
  failureDetail "q" (fun _ => respTimedOut) 2 1 respExec "esriJobTimedOut"
    (by decide) rfl (by decide)

/-- C4 counterexample: the second fetched response lacks a `status` field, yet
the operation neither raises nor stops — it keeps polling and returns the
results of the third response. -/
theorem missingStatus_counterexample :
    (statusesGap 1).status = none ∧
    syncPoll "p" statusesGap 5 =
      (.success resultsOther,
       [.sleep 5, .httpPost "p" jsonParams, .sleep 5, .httpPost "p" jsonParams]) :=
  ⟨rfl, by rfl⟩

/-- C4 (amended): only the first fetched job-status response is checked for
the presence of a `status` field — when it is missing there the operation
raises `"No job results."` before any sleep; a later response lacking the
field is treated as a non-terminal `None` status and polling continues. -/
theorem missingStatus_behavior :
    (∀ (path : String) (responses : Nat → JobResponse) (fuel : Nat),
       (responses 0).status = none →
       syncPoll path responses fuel = (.raised "No job results.", [])) ∧
    (∀ (path : String) (responses : Nat → JobResponse) (fuel i : Nat)
       (cur : JobResponse),
       ¬ cur.status = some succStr → (responses i).status = none →
       pollFrom path responses (fuel + 1) i cur =
         ((pollFrom path responses fuel (i + 1) (responses i)).1,
          .sleep 5 :: .httpPost path jsonParams ::
            (pollFrom path responses fuel (i + 1) (responses i)).2)) := by
  constructor
  · intro path responses fuel h
    unfold syncPoll
    rw [h]
  · intro path responses fuel i cur hc hs
    exact pollFrom_contStep_none path responses fuel i cur hc hs

/-- C4 witness: the amended theorem evaluated on a first response lacking
`status` and on a loop step whose re-fetch lacks `status`. -/
theorem missingStatus_behavior_witness :
    syncPoll "w" (fun _ => respNoStatus) 7 = (.raised "No job results.", []) ∧
    pollFrom "w" (fun _ => respNoStatus) 3 1 respExec =
      ((pollFrom "w" (fun _ => respNoStatus) 2 2 respNoStatus).1,
       .sleep 5 :: .httpPost "w" jsonParams ::
         (pollFrom "w" (fun _ => respNoStatus) 2 2 respNoStatus).2) :=
  ⟨missingStatus_behavior.1 "w" (fun _ => respNoStatus) 7 rfl,
   missingStatus_behavior.2 "w" (fun _ => respNoStatus) 2 1 respExec (by decide) rfl⟩

/-- On a stream of responses whose statuses are never terminal (missing or
neither success nor failure), the loop's only behavior is to sleep 5 seconds
and re-fetch, forever: for every fuel bound it is still running, with a trace
of exactly one 5-second sleep between consecutive fetches. -/
theorem pollFrom_nonterminal (path : String) (responses : Nat → JobResponse)
    (h : ∀ i, (responses i).status = none ∨
         ∃ s, (responses i).status = some s ∧ s ≠ succStr ∧ s ∉ failSet) :
    ∀ (fuel i : Nat) (cur : JobResponse), ¬ cur.status = some succStr →
      pollFrom path responses fuel i cur = (.timeout, iterTrace path fuel) := by
  intro fuel
  induction fuel with
  | zero =>
    intro i cur hc
    rw [pollFrom_zero path responses i cur hc]
    rfl
  | succ fuel IH =>
    intro i cur hc
    rcases h i with hnone | ⟨s, hs, hns, hnf⟩
    · rw [pollFrom_contStep_none path responses fuel i cur hc hnone,
        IH (i + 1) (responses i) (by rw [hnone]; simp)]
      rfl
    · rw [pollFrom_contStep_some path responses fuel i cur s hc hs hnf,
        IH (i + 1) (responses i)
          (by rw [hs]; intro heq; exact hns (Option.some.inj heq))]
      rfl

/-- C5: with a fixed 5-second delay between consecutive status fetches, no
backoff and no attempt or time limit, a run in which no terminal status
(`esriJobSucceeded` or a failure status) is ever observed never returns: for
every fuel bound the loop is still running, and its effect trace is exactly
`fuel` repetitions of sleep-5-then-fetch. -/
theorem syncPoll_nonterminal_diverges (responses : Nat → JobResponse)
    (h : ∀ i, (responses i).status = none ∨
         ∃ s, (responses i).status = some s ∧ s ≠ succStr ∧ s ∉ failSet)
    (h0 : ∃ s0, (responses 0).status = some s0) :
    ∀ (path : String) (fuel : Nat),
      syncPoll path responses fuel = (.timeout, iterTrace path fuel) := by
  intro path fuel
  obtain ⟨s0, hs0⟩ := h0
  have hns0 : s0 ≠ succStr := by
    rcases h 0 with hnone | ⟨s, hs, hns, _⟩
    · rw [hs0] at hnone; cases hnone
    · rw [hs0] at hs; exact (Option.some.inj hs) ▸ hns
  unfold syncPoll
  rw [hs0]
  exact pollFrom_nonterminal path responses h fuel 1 (responses 0)
    (by rw [hs0]; intro heq; exact hns0 (Option.some.inj heq))

/-- C5 witness: the theorem evaluated on a server that always reports
`esriJobExecuting`, with fuel 3. -/
theorem syncPoll_nonterminal_diverges_witness :
    syncPoll "w5" (fun _ => respExec) 3 = (.timeout, iterTrace "w5" 3) :=
  syncPoll_nonterminal_diverges (fun _ => respExec)
    (fun _ => Or.inr ⟨"esriJobExecuting", rfl, by decide, by decide⟩)
    ⟨"esriJobExecuting", rfl⟩ "w5" 3

/-- C6: with `asynchronous = True`, both operations perform exactly one HTTP
GET (the submit request) and return the decoded job response directly — the
effect trace is the singleton GET, so no status fetch and no sleep occurs;
polling arises only in the `asynchronous = False` branch. -/
theorem asynchronous_single_get (props : List (String × PyVal)) (allowed : PyVal)
    (h1 : pdFind props "exportTilesAllowed" = some allowed)
    (h2 : pyEqFalse allowed = false) :
    (∀ (baseUrl : String) (levels export_by tile_package export_extent : PyVal)
       (area_of_interest : Option PyVal) (kwargs : List (String × PyVal))
       (env : Env) (fuel : Nat),
       estimate_export_tiles_size props baseUrl levels export_by tile_package
           export_extent area_of_interest true kwargs env fuel =
         (.ret (.val env.submit),
          [.httpGet (baseUrl ++ "/estimateExportTilesSize")
             (estimateParams levels export_by tile_package export_extent
               area_of_interest kwargs)])) ∧
    (∀ (props2 : List (String × PyVal)) (baseUrl : String)
       (levels export_by tile_package export_extent optimize_for_size
         compression : PyVal)
       (area_of_interest : Option PyVal) (kwargs : List (String × PyVal))
       (env : Env) (fuel : Nat),
       export_tiles props2 baseUrl levels export_by tile_package export_extent
           optimize_for_size compression area_of_interest true kwargs env fuel =
         (.ret (.val env.submit),
          [.httpGet (baseUrl ++ "/exportTiles")
             (exportParams levels export_by tile_package export_extent
               optimize_for_size compression area_of_interest kwargs)])) := by
  constructor
  · intro baseUrl levels export_by tile_package export_extent area_of_interest
      kwargs env fuel
    unfold estimate_export_tiles_size
    rw [h1]
    simp [h2]
  · intro props2 baseUrl levels export_by tile_package export_extent
      optimize_for_size compression area_of_interest kwargs env fuel
    rfl

/-- C6 witness: both asynchronous runs evaluated against a concrete allowed
service and server. -/
theorem asynchronous_single_get_witness :
    estimate_export_tiles_size propsAllowed "u" (.vstr "1") (.vstr "LevelID")
        (.vbool false) (.vstr "DEFAULTEXTENT") none true [] envOk 5 =
      (.ret (.val envOk.submit),
       [.httpGet "u/estimateExportTilesSize"
          (estimateParams (.vstr "1") (.vstr "LevelID") (.vbool false)
            (.vstr "DEFAULTEXTENT") none [])]) ∧
    export_tiles propsAllowed "u" (.vstr "1") (.vstr "LevelID") (.vbool false)
        (.vstr "DEFAULT") (.vbool true) (.vint 75) none true [] envOk 5 =
      (.ret (.val envOk.submit),
       [.httpGet "u/exportTiles"
          (exportParams (.vstr "1") (.vstr "LevelID") (.vbool false)
            (.vstr "DEFAULT") (.vbool true) (.vint 75) none [])]) :=
  ⟨(asynchronous_single_get propsAllowed (.vbool true) rfl rfl).1 "u" (.vstr "1")
      (.vstr "LevelID") (.vbool false) (.vstr "DEFAULTEXTENT") none [] envOk 5,
   (asynchronous_single_get propsAllowed (.vbool true) rfl rfl).2 propsAllowed "u"
      (.vstr "1") (.vstr "LevelID") (.vbool false) (.vstr "DEFAULT") (.vbool true)
      (.vint 75) none [] envOk 5⟩

/-- C7 counterexample: with `area_of_interest = None` but an extra keyword
argument named `areaOfInterest`, the assembled mapping does contain the key
`areaOfInterest` — the claimed "if and only if" fails, because the keyword
arguments are merged before the `area_of_interest` check. -/
theorem params_kwargs_counterexample :
    pdFind (estimateParams (.vstr "1") (.vstr "LevelID") (.vbool false)
        (.vstr "DEFAULTEXTENT") none [("areaOfInterest", PyVal.vnone)])
        "areaOfInterest" = some PyVal.vnone ∧
    pdFind (exportParams (.vstr "1") (.vstr "LevelID") (.vbool false)
        (.vstr "DEFAULT") (.vbool true) (.vint 75) none
        [("areaOfInterest", PyVal.vnone)]) "areaOfInterest" = some PyVal.vnone :=
  ⟨rfl, rfl⟩

/-- C7 (amended): when no extra keyword arguments are supplied, both request
builders contain the key `areaOfInterest` exactly when the `area_of_interest`
argument is not `None` (and then bound to it), and the required keys are
present with their given or default values; extra keyword arguments are merged
into the mapping before the `areaOfInterest` insertion and can add or
overwrite keys. -/
theorem params_required_keys
    (levels export_by tile_package export_extent optimize_for_size
      compression : PyVal) (area_of_interest : Option PyVal) :
    (pdFind (estimateParams levels export_by tile_package export_extent
        area_of_interest []) "areaOfInterest" = area_of_interest ∧
     pdFind (estimateParams levels export_by tile_package export_extent
        area_of_interest []) "f" = some (.vstr "json") ∧
     pdFind (estimateParams levels export_by tile_package export_extent
        area_of_interest []) "levels" = some levels ∧
     pdFind (estimateParams levels export_by tile_package export_extent
        area_of_interest []) "exportBy" = some export_by ∧
     pdFind (estimateParams levels export_by tile_package export_extent
        area_of_interest []) "tilePackage" = some tile_package ∧
     pdFind (estimateParams levels export_by tile_package export_extent
        area_of_interest []) "exportExtent" = some export_extent) ∧
    (pdFind (exportParams levels export_by tile_package export_extent
        optimize_for_size compression area_of_interest []) "areaOfInterest" =
        area_of_interest ∧
     pdFind (exportParams levels export_by tile_package export_extent
        optimize_for_size compression area_of_interest []) "f" =
        some (.vstr "json") ∧
     pdFind (exportParams levels export_by tile_package export_extent
        optimize_for_size compression area_of_interest []) "levels" = some levels ∧
     pdFind (exportParams levels export_by tile_package export_extent
        optimize_for_size compression area_of_interest []) "exportBy" =
        some export_by ∧
     pdFind (exportParams levels export_by tile_package export_extent
        optimize_for_size compression area_of_interest []) "tilePackage" =
        some tile_package ∧
     pdFind (exportParams levels export_by tile_package export_extent
        optimize_for_size compression area_of_interest []) "exportExtent" =
        some export_extent) := by
  cases area_of_interest <;>
    exact ⟨⟨rfl, rfl, rfl, rfl, rfl, rfl⟩, ⟨rfl, rfl, rfl, rfl, rfl, rfl⟩⟩

/-- C8: when the service properties map `exportTilesAllowed` to `False`,
`estimate_export_tiles_size` returns `None` with an empty effect trace (no
HTTP request, no sleep, no polling), regardless of the other arguments;
`export_tiles` never consults the properties — its result is the same for any
properties mapping — and always begins by issuing the submit GET. -/
theorem exportTilesAllowed_guard (props : List (String × PyVal))
    (h : pdFind props "exportTilesAllowed" = some (.vbool false)) :
    (∀ (baseUrl : String) (levels export_by tile_package export_extent : PyVal)
       (area_of_interest : Option PyVal) (asynchronous : Bool)
       (kwargs : List (String × PyVal)) (env : Env) (fuel : Nat),
       estimate_export_tiles_size props baseUrl levels export_by tile_package
           export_extent area_of_interest asynchronous kwargs env fuel =
         (.ret .pynone, [])) ∧
    (∀ (p1 p2 : List (String × PyVal)) (baseUrl : String)
       (levels export_by tile_package export_extent optimize_for_size
         compression : PyVal)
       (area_of_interest : Option PyVal) (asynchronous : Bool)
       (kwargs : List (String × PyVal)) (env : Env) (fuel : Nat),
       export_tiles p1 baseUrl levels export_by tile_package export_extent
           optimize_for_size compression area_of_interest asynchronous kwargs
           env fuel =
         export_tiles p2 baseUrl levels export_by tile_package export_extent
           optimize_for_size compression area_of_interest asynchronous kwargs
           env fuel) ∧
    (∀ (p : List (String × PyVal)) (baseUrl : String)
       (levels export_by tile_package export_extent optimize_for_size
         compression : PyVal)
       (area_of_interest : Option PyVal) (asynchronous : Bool)
       (kwargs : List (String × PyVal)) (env : Env) (fuel : Nat),
       (export_tiles p baseUrl levels export_by tile_package export_extent
           optimize_for_size compression area_of_interest asynchronous kwargs
           env fuel).2.head? =
         some (.httpGet (baseUrl ++ "/exportTiles")
           (exportParams levels export_by tile_package export_extent
             optimize_for_size compression area_of_interest kwargs))) := by
  refine ⟨?_, ?_, ?_⟩
  · intro baseUrl levels export_by tile_package export_extent area_of_interest
      asynchronous kwargs env fuel
    unfold estimate_export_tiles_size
    rw [h]
    rfl
  · intro p1 p2 baseUrl levels export_by tile_package export_extent
      optimize_for_size compression area_of_interest asynchronous kwargs env fuel
    rfl
  · intro p baseUrl levels export_by tile_package export_extent
      optimize_for_size compression area_of_interest asynchronous kwargs env fuel
    unfold export_tiles
    cases asynchronous
    · simp only [Bool.false_eq_true, if_false]
      cases hjid : pyGet env.submit "jobId" with
      | none => rfl
      | some jid =>
        rcases hs : syncPoll (baseUrl ++ "/exportTiles" ++ "/jobs/" ++ pyStr jid)
            env.jobStatus fuel with ⟨o, t⟩
        cases o <;> simp [hs]
    · rfl

/-- C8 witness: the guard evaluated on a forbidding properties mapping, and
the properties-independence and first-effect facts on a concrete run. -/
theorem exportTilesAllowed_guard_witness :
    estimate_export_tiles_size propsForbidden "u" (.vstr "1") (.vstr "LevelID")
        (.vbool false) (.vstr "DEFAULTEXTENT") none false [] envOk 5 =
      (.ret .pynone, []) ∧
    export_tiles propsForbidden "u" (.vstr "1") (.vstr "LevelID") (.vbool false)
        (.vstr "DEFAULT") (.vbool true) (.vint 75) none false [] envOk 5 =
      export_tiles propsAllowed "u" (.vstr "1") (.vstr "LevelID") (.vbool false)
        (.vstr "DEFAULT") (.vbool true) (.vint 75) none false [] envOk 5 ∧
    (export_tiles propsForbidden "u" (.vstr "1") (.vstr "LevelID") (.vbool false)
        (.vstr "DEFAULT") (.vbool true) (.vint 75) none false [] envOk 5).2.head? =
      some (.httpGet "u/exportTiles"
        (exportParams (.vstr "1") (.vstr "LevelID") (.vbool false)
          (.vstr "DEFAULT") (.vbool true) (.vint 75) none [])) :=
  ⟨(exportTilesAllowed_guard propsForbidden rfl).1 "u" (.vstr "1") (.vstr "LevelID")
      (.vbool false) (.vstr "DEFAULTEXTENT") none false [] envOk 5,
   (exportTilesAllowed_guard propsForbidden rfl).2.1 propsForbidden propsAllowed "u"
      (.vstr "1") (.vstr "LevelID") (.vbool false) (.vstr "DEFAULT") (.vbool true)
      (.vint 75) none false [] envOk 5,
   (exportTilesAllowed_guard propsForbidden rfl).2.2 propsForbidden "u" (.vstr "1")
      (.vstr "LevelID") (.vbool false) (.vstr "DEFAULT") (.vbool true) (.vint 75)
      none false [] envOk 5⟩

/-- C1 counterexample: a run of `export_tiles` whose first polled status is
`esriJobFailed` (a failure-set member) yet which raises nothing — the re-fetch
reports success — and whose return value is `None`, not the job's `results`
mapping. -/
theorem pollLoop_terminal_counterexample :
    (envFlip.jobStatus 0).status = some "esriJobFailed" ∧
    "esriJobFailed" ∈ failSet ∧
    export_tiles propsAllowed "u" (.vstr "1") (.vstr "LevelID") (.vbool false)
        (.vstr "DEFAULT") (.vbool true) (.vint 75) none false [] envFlip 5 =
      (.ret .pynone,
       [.httpGet "u/exportTiles"
          (exportParams (.vstr "1") (.vstr "LevelID") (.vbool false)
            (.vstr "DEFAULT") (.vbool true) (.vint 75) none []),
        .httpPost "u/exportTiles/jobs/j1" jsonParams,
        .sleep 5, .httpPost "u/exportTiles/jobs/j1" jsonParams]) ∧
    respSucc.results = resultsOther ∧
    Ret.pynone ≠ Ret.results resultsOther := by
  refine ⟨rfl, by decide, by rfl, rfl, by simp⟩

/-- C1 (amended): whenever a status fetched inside the loop body (any fetch
after the first) is in the failure set, the loop raises before returning any
result; a failure status on the first fetch is not failure-checked and leads
to a further sleep and fetch. When the status observed at the loop condition
is `esriJobSucceeded`, the loop yields that response's `results` mapping
unchanged; `estimate_export_tiles_size` returns it as its result, while
`export_tiles` post-processes it (returning downloaded files, a folder
listing, or `None`) instead of returning the mapping. -/
theorem pollLoop_terminal_behavior :
    (∀ (path : String) (responses : Nat → JobResponse) (fuel i : Nat)
       (cur : JobResponse) (s : String),
       ¬ cur.status = some succStr → (responses i).status = some s →
       s ∈ failSet →
       pollFrom path responses (fuel + 1) i cur =
         (.raised ("Job Failed with status " ++ s),
          [.sleep 5, .httpPost path jsonParams,
           .printOut (pyStr (responses i).messages)])) ∧
    (∀ (path : String) (responses : Nat → JobResponse) (fuel i : Nat)
       (cur : JobResponse),
       cur.status = some succStr →
       pollFrom path responses fuel i cur = (.success cur.results, [])) ∧
    (∀ (props : List (String × PyVal)) (allowed : PyVal) (baseUrl : String)
       (levels export_by tile_package export_extent : PyVal)
       (area_of_interest : Option PyVal) (kwargs : List (String × PyVal))
       (env : Env) (fuel : Nat) (jid : PyVal) (r : List (String × ResEntry))
       (t : List Eff),
       pdFind props "exportTilesAllowed" = some allowed →
       pyEqFalse allowed = false →
       pyGet env.submit "jobId" = some jid →
       syncPoll (baseUrl ++ "/estimateExportTilesSize" ++ "/jobs/" ++ pyStr jid)
           env.jobStatus fuel = (.success r, t) →
       estimate_export_tiles_size props baseUrl levels export_by tile_package
           export_extent area_of_interest false kwargs env fuel =
         (.ret (.results r),
          .httpGet (baseUrl ++ "/estimateExportTilesSize")
              (estimateParams levels export_by tile_package export_extent
                area_of_interest kwargs) ::
            .httpPost (baseUrl ++ "/estimateExportTilesSize" ++ "/jobs/" ++ pyStr jid)
              jsonParams :: t)) ∧
    (∀ (props : List (String × PyVal)) (baseUrl : String)
       (levels export_by tile_package export_extent optimize_for_size
         compression : PyVal)
       (area_of_interest : Option PyVal) (kwargs : List (String × PyVal))
       (env : Env) (fuel : Nat) (jid : PyVal) (r : List (String × ResEntry))
       (t : List Eff),
       pyGet env.submit "jobId" = some jid →
       syncPoll (baseUrl ++ "/exportTiles" ++ "/jobs/" ++ pyStr jid)
           env.jobStatus fuel = (.success r, t) →
       export_tiles props baseUrl levels export_by tile_package export_extent
           optimize_for_size compression area_of_interest false kwargs env fuel =
         ((exportPost tile_package env r).1,
          (.httpGet (baseUrl ++ "/exportTiles")
              (exportParams levels export_by tile_package export_extent
                optimize_for_size compression area_of_interest kwargs) ::
            .httpPost (baseUrl ++ "/exportTiles" ++ "/jobs/" ++ pyStr jid)
              jsonParams :: t) ++ (exportPost tile_package env r).2)) := by
  refine ⟨?_, ?_, ?_, ?_⟩
  · intro path responses fuel i cur s hc hs hf
    exact pollFrom_failStep path responses fuel i cur s hc hs hf
  · intro path responses fuel i cur h
    exact pollFrom_succ path responses fuel i cur h
  · intro props allowed baseUrl levels export_by tile_package export_extent
      area_of_interest kwargs env fuel jid r t h1 h2 hjid hsync
    unfold estimate_export_tiles_size
    rw [h1]
    simp only [h2, Bool.false_eq_true, if_false, hjid, hsync]
    rfl
  · intro props baseUrl levels export_by tile_package export_extent
      optimize_for_size compression area_of_interest kwargs env fuel jid r t
      hjid hsync
    unfold export_tiles
    simp only [Bool.false_eq_true, if_false, hjid, hsync]
    rfl

/-- C1 witness: the four parts of the amended theorem evaluated on concrete
servers — a failing re-fetch, an immediately succeeded poll, and full
synchronous runs of both operations against an immediately succeeding job. -/
theorem pollLoop_terminal_behavior_witness :
    pollFrom "w1" (fun _ => respFailed) 3 1 respExec =
      (.raised "Job Failed with status esriJobFailed",
       [.sleep 5, .httpPost "w1" jsonParams, .printOut "boom"]) ∧
    pollFrom "w1" (fun _ => respSucc) 2 1 respSucc =
      (.success resultsOther, []) ∧
    estimate_export_tiles_size propsAllowed "u" (.vstr "1") (.vstr "LevelID")
        (.vbool false) (.vstr "DEFAULTEXTENT") none false [] envOk 5 =
      (.ret (.results resultsOther),
       [.httpGet "u/estimateExportTilesSize"
          (estimateParams (.vstr "1") (.vstr "LevelID") (.vbool false)
            (.vstr "DEFAULTEXTENT") none []),
        .httpPost "u/estimateExportTilesSize/jobs/j1" jsonParams]) ∧
    export_tiles propsAllowed "u" (.vstr "1") (.vstr "LevelID") (.vbool false)
        (.vstr "DEFAULT") (.vbool true) (.vint 75) none false [] envOk 5 =
      (.ret .pynone,
       [.httpGet "u/exportTiles"
          (exportParams (.vstr "1") (.vstr "LevelID") (.vbool false)
            (.vstr "DEFAULT") (.vbool true) (.vint 75) none []),
        .httpPost "u/exportTiles/jobs/j1" jsonParams]) :=
  ⟨pollLoop_terminal_behavior.1 "w1" (fun _ => respFailed) 2 1 respExec
      "esriJobFailed" (by decide) rfl (by decide),
   pollLoop_terminal_behavior.2.1 "w1" (fun _ => respSucc) 2 1 respSucc rfl,
   pollLoop_terminal_behavior.2.2.1 propsAllowed (.vbool true) "u" (.vstr "1")
      (.vstr "LevelID") (.vbool false) (.vstr "DEFAULTEXTENT") none [] envOk 5
      (.vstr "j1") resultsOther [] rfl rfl rfl rfl,
   pollLoop_terminal_behavior.2.2.2 propsAllowed "u" (.vstr "1") (.vstr "LevelID")
      (.vbool false) (.vstr "DEFAULT") (.vbool true) (.vint 75) none [] envOk 5
      (.vstr "j1") resultsOther [] rfl rfl⟩
